import Mathlib

/-!
Shallow embedding of libobs-d3d11/d3d11-duplicator.cpp: the desktop
duplication session (gs_duplicator), its registry (instances map with
refcounts), the polling frame-update operation, the texture cache
(copy_texture) and the preview presenter (PresentFrame).

External effects (the DXGI duplication provider, GPU texture allocation,
window client geometry) are supplied as explicit oracle inputs; the
functions below mirror the control flow of the source line by line.
-/

namespace D3D11Duplicator

/-- Subset of gs_color_format values reachable through the duplicator path. -/
inductive GsColorFormat where
  | GS_BGRA
  | GS_BGRA_UNORM
  | GS_RGBA16F
  | GS_OTHER (n : Nat)
deriving DecidableEq, Repr

/-- DXGI texture formats a duplicated frame can carry. The source requests
DXGI_FORMAT_R16G16B16A16_FLOAT and DXGI_FORMAT_B8G8R8A8_UNORM from
DuplicateOutput1; OTHER stands for any other DXGI format value. -/
inductive DXGIFormat where
  | R16G16B16A16_FLOAT
  | B8G8R8A8_UNORM
  | OTHER (n : Nat)
deriving DecidableEq, Repr

/-- The gs_color_space values assigned by copy_texture. -/
inductive GsColorSpace where
  | GS_CS_SRGB
  | GS_CS_SRGB_16F
  | GS_CS_709_SCRGB
deriving DecidableEq, Repr

/-- Modelled from the spec: ConvertDXGITextureFormat lives in
d3d11-subsystem.hpp, which is not under src/. Per the spec's format table,
the half-float duplication format maps to the 16-bit-float gs format and
the 8-bit BGRA duplication format maps to the BGRA unorm gs format. -/
def ConvertDXGITextureFormat : DXGIFormat → GsColorFormat
  | .R16G16B16A16_FLOAT => .GS_RGBA16F
  | .B8G8R8A8_UNORM => .GS_BGRA_UNORM
  | .OTHER n => .GS_OTHER n

/-- Modelled from the spec: gs_generalize_format lives in libobs, not under
src/. The spec describes it as reducing to a canonical set of pixel formats
independent of the provider's exact native format; concretely the _UNORM
variant collapses to the canonical typeless format. -/
def gs_generalize_format : GsColorFormat → GsColorFormat
  | .GS_BGRA_UNORM => .GS_BGRA
  | f => f

/-- The generalized gs format of a native DXGI frame format, as computed at
the top of copy_texture. -/
def general_format_of (fmt : DXGIFormat) : GsColorFormat :=
  gs_generalize_format (ConvertDXGITextureFormat fmt)

/-- Descriptor of one captured native frame (D3D11_TEXTURE2D_DESC of the
acquired ID3D11Texture2D). -/
structure FrameDesc where
  width : Nat
  height : Nat
  fmt : DXGIFormat
deriving DecidableEq, Repr

/-- The cached destination texture (gs_texture_2d). id is the object
identity (a fresh allocation gets a fresh id); contents records which
frame's pixels were last copied into it by CopyResource. -/
structure Texture2D where
  id : Nat
  width : Nat
  height : Nat
  format : GsColorFormat
  contents : Option FrameDesc
deriving DecidableEq, Repr

/-- The preview swap chain (gs_swap_chain): object identity, current target
size, whether target.renderTarget[0] exists, and the waitable-present flag. -/
structure SwapChain where
  id : Nat
  width : Nat
  height : Nat
  hasRTV : Bool
  hWaitable : Bool
deriving DecidableEq, Repr

/-- gs_rect, used for the device viewport. -/
structure GsRect where
  x : Int
  y : Int
  cx : Int
  cy : Int
deriving DecidableEq, Repr

/-- The shared GPU device state touched by PresentFrame: the current swap
chain pointer (device->curSwapChain, by identity), the device viewport, and
the render target bound on the device context by OMSetRenderTargets. -/
structure DeviceState where
  curSwapChain : Option Nat
  viewport : GsRect
  boundRTV : Option Nat
deriving DecidableEq, Repr

/-- One gs_duplicator session. hasDuplicator models whether the
IDXGIOutputDuplication capture handle is non-null; nextTexId is the
allocator counter handing out fresh texture identities. -/
structure Duplicator where
  idx : Int
  refs : Nat
  hasDuplicator : Bool
  hdr : Bool
  color_space : GsColorSpace
  texture : Option Texture2D
  updated : Bool
  displayWindow : Bool
  displaySwapChain : Option SwapChain
  nextTexId : Nat
deriving DecidableEq, Repr

/-- Environment for one PresentFrame call: window visibility
(IsWindowVisible), the window client rectangle (GetClientRect), and whether
a needed swap-chain Resize would succeed. -/
structure PresentEnv where
  windowVisible : Bool
  clientWidth : Nat
  clientHeight : Nat
  resizeOk : Bool
deriving DecidableEq, Repr

/-- Result of PresentFrame: updated session and device state, plus flags
recording which GPU operations ran (Resize, ClearRenderTargetView,
CopySubresourceRegion, Present). -/
structure PresentOut where
  d : Duplicator
  dev : DeviceState
  resized : Bool
  cleared : Bool
  copied : Bool
  presented : Bool
deriving DecidableEq, Repr

/-- The drawing tail of PresentFrame (source lines 234-284): save
device->curSwapChain, install the preview chain and its viewport, fetch the
render target view (restoring the saved chain and bailing if missing),
clear, bind, copy the cached texture into the back buffer, present, and
restore the saved chain. The viewport and the bound render target are not
restored by the source. -/
def presentDraw (d : Duplicator) (dev : DeviceState) (sc : SwapChain) (resizedFlag : Bool) :
    PresentOut :=
  let d2 := { d with displaySwapChain := some sc }
  let prevSwapChain := dev.curSwapChain
  let dev2 := { dev with curSwapChain := some sc.id,
                         viewport := ⟨0, 0, (sc.width : Int), (sc.height : Int)⟩ }
  if sc.hasRTV = false then
    ⟨d2, { dev2 with curSwapChain := prevSwapChain }, resizedFlag, false, false, false⟩
  else
    ⟨d2, { dev2 with boundRTV := some sc.id, curSwapChain := prevSwapChain },
      resizedFlag, true, true, true⟩

/-- gs_duplicator::PresentFrame (source lines 201-284). Early returns: no
window, no swap chain, no cached texture, window not visible, zero client
area; then an optional Resize of the swap chain to the client area (a
Resize failure logs and returns), then the drawing tail. -/
def PresentFrame (d : Duplicator) (dev : DeviceState) (env : PresentEnv) : PresentOut :=
  match d.displaySwapChain, d.texture with
  | some sc, some _t =>
    if d.displayWindow = false then ⟨d, dev, false, false, false, false⟩
    else if env.windowVisible = false then ⟨d, dev, false, false, false, false⟩
    else if env.clientWidth = 0 ∨ env.clientHeight = 0 then
      ⟨d, dev, false, false, false, false⟩
    else if env.clientWidth ≠ sc.width ∨ env.clientHeight ≠ sc.height then
      if env.resizeOk then
        presentDraw d dev { sc with width := env.clientWidth, height := env.clientHeight } true
      else ⟨d, dev, false, false, false, false⟩
    else presentDraw d dev sc false
  | _, _ => ⟨d, dev, false, false, false, false⟩

/-- Condition of copy_texture's reallocation branch (source line 428): no
cached texture yet, or the cached texture differs from the incoming frame
in width, height or generalized format. -/
def needs_recreate (d : Duplicator) (frame : FrameDesc) : Bool :=
  match d.texture with
  | none => true
  | some t =>
    decide (t.width ≠ frame.width) || decide (t.height ≠ frame.height) ||
      decide (t.format ≠ general_format_of frame.fmt)

/-- copy_texture (source lines 421-440): if the cached texture is missing
or mismatched, delete it and allocate a new one at the frame's size and
generalized format (allocOk models gs_texture_create returning non-null)
and recompute color_space; then, if a texture exists, CopyResource the
frame into it. -/
def copy_texture (d : Duplicator) (frame : FrameDesc) (allocOk : Bool) : Duplicator :=
  let d1 :=
    if needs_recreate d frame then
      { d with
        texture :=
          if allocOk then
            some ⟨d.nextTexId, frame.width, frame.height, general_format_of frame.fmt, none⟩
          else none,
        nextTexId := d.nextTexId + 1,
        color_space :=
          if d.hdr then .GS_CS_709_SCRGB
          else if frame.fmt = .R16G16B16A16_FLOAT then .GS_CS_SRGB_16F
          else .GS_CS_SRGB }
    else d
  match d1.texture with
  | some t => { d1 with texture := some { t with contents := some frame } }
  | none => d1

/-- Outcome of IDXGIOutputDuplication::AcquireNextFrame with zero timeout. -/
inductive AcquireResult where
  | AccessLost
  | WaitTimeout
  | OtherFailure
  | Success (frame : FrameDesc)
deriving DecidableEq, Repr

/-- Environment for one gs_duplicator_update_frame call: the poll outcome,
whether the QueryInterface for ID3D11Texture2D on the acquired resource
succeeds, whether gs_texture_create would succeed, and the environment for
any nested PresentFrame call. -/
structure UpdateEnv where
  acquire : AcquireResult
  queryTexOk : Bool
  allocOk : Bool
  present : PresentEnv
deriving DecidableEq, Repr

/-- Result of gs_duplicator_update_frame: updated session and device state,
the boolean return value, whether AcquireNextFrame was called, how many
times ReleaseFrame was called, and how many times PresentFrame was called. -/
structure UpdateResult where
  d : Duplicator
  dev : DeviceState
  ret : Bool
  polled : Bool
  releaseFrameCalls : Nat
  presentCalls : Nat
deriving DecidableEq, Repr

/-- Condition of the early re-present branch (source line 454): window,
swap chain and cached texture exist and the frame is already fresh this
cycle. -/
def representing (d : Duplicator) : Bool :=
  d.displayWindow && d.displaySwapChain.isSome && d.texture.isSome && d.updated

/-- gs_duplicator_update_frame (source lines 442-495). Returns false when
the capture handle is absent; re-presents and returns true when the
re-present branch applies; otherwise polls AcquireNextFrame with zero
timeout: AccessLost returns false, WaitTimeout returns true, any other
failure logs and returns true, and on success the texture query either
fails (ReleaseFrame, return true) or the frame is cached via copy_texture,
ReleaseFrame is called, updated is set, and the frame is presented when a
preview window and swap chain exist. -/
def gs_duplicator_update_frame (d : Duplicator) (dev : DeviceState) (env : UpdateEnv) :
    UpdateResult :=
  if d.hasDuplicator = false then ⟨d, dev, false, false, 0, 0⟩
  else if representing d then
    let p := PresentFrame d dev env.present
    ⟨p.d, p.dev, true, false, 0, 1⟩
  else
    match env.acquire with
    | .AccessLost => ⟨d, dev, false, true, 0, 0⟩
    | .WaitTimeout => ⟨d, dev, true, true, 0, 0⟩
    | .OtherFailure => ⟨d, dev, true, true, 0, 0⟩
    | .Success frame =>
      if env.queryTexOk = false then ⟨d, dev, true, true, 1, 0⟩
      else
        let d1 := copy_texture d frame env.allocOk
        let d2 := { d1 with updated := true }
        if d2.displayWindow && d2.displaySwapChain.isSome then
          let p := PresentFrame d2 dev env.present
          ⟨p.d, p.dev, true, true, 1, 1⟩
        else ⟨d2, dev, true, true, 1, 0⟩

/-- One entry of the process-wide instances map, viewed through the fields
the registry code touches: the object identity of the gs_duplicator pointer
and its refs counter. -/
structure RegSession where
  sid : Nat
  refs : Nat
deriving DecidableEq, Repr

/-- The process-wide instances registry (static unordered_map from monitor
index to gs_duplicator pointer), with an allocator counter for fresh object
identities. -/
structure Instances where
  entries : List (Int × RegSession)
  nextSid : Nat
deriving DecidableEq, Repr

/-- Association-list lookup, modelling instances.find. -/
def lookupInst : List (Int × RegSession) → Int → Option RegSession
  | [], _ => none
  | (k, v) :: rest, i => if k = i then some v else lookupInst rest i

/-- Association-list insert-or-assign, modelling instances[idx] = d and the
in-place mutation of the shared object. -/
def setInst : List (Int × RegSession) → Int → RegSession → List (Int × RegSession)
  | [], i, v => [(i, v)]
  | (k, w) :: rest, i, v =>
    if k = i then (i, v) :: rest else (k, w) :: setInst rest i v

/-- Association-list erase, modelling instances.erase. -/
def eraseInst : List (Int × RegSession) → Int → List (Int × RegSession)
  | [], _ => []
  | (k, w) :: rest, i => if k = i then rest else (k, w) :: eraseInst rest i

/-- device_duplicator_create (source lines 386-411): if an entry for the
index exists, increment its refs and return the same object; otherwise run
the constructor (ctorOk models whether gs_duplicator's constructor throws),
and on success insert the new object before returning it; on failure log
and return null, leaving the map untouched. -/
def device_duplicator_create (r : Instances) (monitor_idx : Int) (ctorOk : Bool) :
    Option RegSession × Instances :=
  match lookupInst r.entries monitor_idx with
  | some s =>
    let s2 := { s with refs := s.refs + 1 }
    (some s2, { r with entries := setInst r.entries monitor_idx s2 })
  | none =>
    if ctorOk then
      let s : RegSession := ⟨r.nextSid, 1⟩
      (some s, ⟨setInst r.entries monitor_idx s, r.nextSid + 1⟩)
    else (none, r)

/-- gs_duplicator_destroy (source lines 413-419): decrement refs on the
object the caller holds (identified by its monitor index, which keys its
registry entry); when the count reaches zero, erase the entry and delete
the object. The returned Bool records whether the object was deleted. -/
def gs_duplicator_destroy (r : Instances) (monitor_idx : Int) : Instances × Bool :=
  match lookupInst r.entries monitor_idx with
  | some s =>
    if s.refs - 1 = 0 then ({ r with entries := eraseInst r.entries monitor_idx }, true)
    else ({ r with entries := setInst r.entries monitor_idx { s with refs := s.refs - 1 } }, false)
  | none => (r, false)

/-- reset_duplicators (source lines 379-384): clear every session's updated
flag. -/
def reset_duplicators (l : List Duplicator) : List Duplicator :=
  l.map fun d => { d with updated := false }

/-! ### Helper lemmas -/

/-- PresentFrame never changes the cached texture. -/
theorem PresentFrame_texture (d : Duplicator) (dev : DeviceState) (env : PresentEnv) :
    (PresentFrame d dev env).d.texture = d.texture := by
  unfold PresentFrame presentDraw
  rcases h1 : d.displaySwapChain with _ | sc <;> rcases h2 : d.texture with _ | t <;>
    simp [h1, h2] <;> split_ifs <;> simp [h2]

/-- PresentFrame never changes the updated flag. -/
theorem PresentFrame_updated (d : Duplicator) (dev : DeviceState) (env : PresentEnv) :
    (PresentFrame d dev env).d.updated = d.updated := by
  unfold PresentFrame presentDraw
  rcases h1 : d.displaySwapChain with _ | sc <;> rcases h2 : d.texture with _ | t <;>
    simp [h1, h2] <;> split_ifs <;> simp [h2]

/-- Lookup after insert-or-assign at the same key finds the new value. -/
theorem lookupInst_setInst_self (l : List (Int × RegSession)) (i : Int) (v : RegSession) :
    lookupInst (setInst l i v) i = some v := by
  induction l with
  | nil => simp [setInst, lookupInst]
  | cons hd tl ih =>
    obtain ⟨k, w⟩ := hd
    by_cases hk : k = i <;> simp [setInst, lookupInst, hk, ih]

/-- Insert-or-assign twice at the same key keeps only the second value. -/
theorem setInst_setInst (l : List (Int × RegSession)) (i : Int) (v w : RegSession) :
    setInst (setInst l i v) i w = setInst l i w := by
  induction l with
  | nil => simp [setInst]
  | cons hd tl ih =>
    obtain ⟨k, u⟩ := hd
    by_cases hk : k = i <;> simp [setInst, hk, ih]

/-- Erasing a freshly inserted key restores the original list when the key
was absent. -/
theorem eraseInst_setInst (l : List (Int × RegSession)) (i : Int) (v : RegSession)
    (h : lookupInst l i = none) : eraseInst (setInst l i v) i = l := by
  induction l with
  | nil => simp [setInst, eraseInst]
  | cons hd tl ih =>
    obtain ⟨k, w⟩ := hd
    by_cases hk : k = i
    · simp [lookupInst, hk] at h
    · simp [lookupInst, hk] at h
      simp [setInst, eraseInst, hk, ih h]

/-! ### Claim theorems -/

/-- Claim C1: gs_duplicator_update_frame returns false exactly when the
capture handle is absent or the zero-timeout poll reports access lost
(DXGI_ERROR_ACCESS_LOST); it returns true on a timeout, on any other
transient poll failure (logged, absorbed), on successful frame acquisition,
and on the re-present branch, which does not poll at all. -/
theorem C1_update_false_iff (d : Duplicator) (dev : DeviceState) (env : UpdateEnv) :
    (gs_duplicator_update_frame d dev env).ret = false ↔
      d.hasDuplicator = false ∨
        (representing d = false ∧ env.acquire = .AccessLost) := by
  unfold gs_duplicator_update_frame
  by_cases hdup : d.hasDuplicator = false
  · simp [hdup]
  · by_cases hrep : representing d = true
    · simp [hdup, hrep]
    · simp only [Bool.not_eq_true] at hrep
      cases env.acquire <;> simp [hdup, hrep] <;> split_ifs <;> simp

/-- Claim C3: on every update call whose zero-timeout poll successfully
acquires a frame, ReleaseFrame is called exactly once before the call
returns, including the path where the ID3D11Texture2D query on the
acquired resource fails. -/
theorem C3_release_exactly_once (d : Duplicator) (dev : DeviceState) (env : UpdateEnv)
    (frame : FrameDesc) (hacq : env.acquire = .Success frame)
    (hpoll : (gs_duplicator_update_frame d dev env).polled = true) :
    (gs_duplicator_update_frame d dev env).releaseFrameCalls = 1 := by
  unfold gs_duplicator_update_frame at hpoll ⊢
  by_cases hdup : d.hasDuplicator = false
  · simp [hdup] at hpoll
  · by_cases hrep : representing d = true
    · simp [hdup, hrep] at hpoll
    · simp only [Bool.not_eq_true] at hrep
      simp only [hdup, hrep, hacq] at hpoll ⊢
      simp <;> split_ifs <;> simp

/-- Witness for C3 at a concrete session and a successfully acquired
frame. -/
theorem C3_release_exactly_once_witness :
    (gs_duplicator_update_frame
        ⟨0, 1, true, false, .GS_CS_SRGB, none, false, false, none, 0⟩
        ⟨none, ⟨0, 0, 0, 0⟩, none⟩
        ⟨.Success ⟨8, 6, .B8G8R8A8_UNORM⟩, true, true,
          ⟨true, 0, 0, true⟩⟩).releaseFrameCalls = 1 :=
  C3_release_exactly_once _ _ _ ⟨8, 6, .B8G8R8A8_UNORM⟩ rfl (by decide)

/-- Claim C5: when a session has a capture handle, a preview window and
swap chain, a cached texture, and its frame is already fresh this cycle,
gs_duplicator_update_frame re-presents the cached frame and returns true
without calling AcquireNextFrame; when no preview is attached (window or
swap chain missing) the re-present branch is not taken and the provider is
polled. -/
theorem C5_represent_branch (d : Duplicator) (dev : DeviceState) (env : UpdateEnv)
    (hdup : d.hasDuplicator = true) :
    (representing d = true →
        (gs_duplicator_update_frame d dev env).ret = true ∧
        (gs_duplicator_update_frame d dev env).polled = false ∧
        (gs_duplicator_update_frame d dev env).presentCalls = 1) ∧
      ((d.displayWindow && d.displaySwapChain.isSome) = false →
        (gs_duplicator_update_frame d dev env).polled = true) := by
  constructor
  · intro hrep
    simp [gs_duplicator_update_frame, hdup, hrep]
  · intro h
    have hrep : representing d = false := by
      simp only [representing, Bool.and_eq_false_iff] at h ⊢
      tauto
    unfold gs_duplicator_update_frame
    cases env.acquire <;> simp [hdup, hrep] <;> split_ifs <;> simp

/-- Concrete session used by the C5 witness: fresh frame, cached texture,
preview window and swap chain all present. -/
def c5Dup : Duplicator :=
  ⟨0, 1, true, false, .GS_CS_SRGB, some ⟨0, 8, 6, .GS_BGRA, none⟩, true, true,
    some ⟨1, 4, 3, true, false⟩, 1⟩

/-- Concrete device state used by the C5 witness. -/
def c5Dev : DeviceState := ⟨none, ⟨0, 0, 0, 0⟩, none⟩

/-- Concrete update environment used by the C5 witness. -/
def c5Env : UpdateEnv := ⟨.WaitTimeout, true, true, ⟨true, 4, 3, true⟩⟩

/-- Witness for C5 at a concrete session with a fresh frame and an
attached preview. -/
theorem C5_represent_branch_witness :
    (representing c5Dup = true →
        (gs_duplicator_update_frame c5Dup c5Dev c5Env).ret = true ∧
        (gs_duplicator_update_frame c5Dup c5Dev c5Env).polled = false ∧
        (gs_duplicator_update_frame c5Dup c5Dev c5Env).presentCalls = 1) ∧
      ((c5Dup.displayWindow && c5Dup.displaySwapChain.isSome) = false →
        (gs_duplicator_update_frame c5Dup c5Dev c5Env).polled = true) :=
  C5_represent_branch c5Dup c5Dev c5Env rfl

/-- Claim C6: when no session exists for a monitor index and the session
constructor fails (throws), device_duplicator_create returns null and
leaves the instances registry exactly as it was. -/
theorem C6_create_failure_unchanged (r : Instances) (monitor_idx : Int)
    (h : lookupInst r.entries monitor_idx = none) :
    device_duplicator_create r monitor_idx false = (none, r) := by
  simp [device_duplicator_create, h]

/-- Witness for C6 on the empty registry. -/
theorem C6_create_failure_unchanged_witness :
    device_duplicator_create ⟨[], 0⟩ 0 false = (none, (⟨[], 0⟩ : Instances)) :=
  C6_create_failure_unchanged ⟨[], 0⟩ 0 rfl

/-- Claim C2: for a monitor index with no existing session, a first
Acquire creates the session with refs 1; a second Acquire returns the same
object identity with refs 2; the first Release decrements refs to 1
without deleting the object, and the second Release removes the registry
entry and deletes the session, restoring the original registry entries. -/
theorem C2_refcounted_sharing (r : Instances) (monitor_idx : Int)
    (h : lookupInst r.entries monitor_idx = none) :
    (device_duplicator_create r monitor_idx true).1 = some ⟨r.nextSid, 1⟩ ∧
    (device_duplicator_create
        (device_duplicator_create r monitor_idx true).2 monitor_idx true).1 =
      some ⟨r.nextSid, 2⟩ ∧
    lookupInst (device_duplicator_create
        (device_duplicator_create r monitor_idx true).2 monitor_idx true).2.entries
      monitor_idx = some ⟨r.nextSid, 2⟩ ∧
    (gs_duplicator_destroy (device_duplicator_create
        (device_duplicator_create r monitor_idx true).2 monitor_idx true).2
      monitor_idx).2 = false ∧
    lookupInst (gs_duplicator_destroy (device_duplicator_create
        (device_duplicator_create r monitor_idx true).2 monitor_idx true).2
      monitor_idx).1.entries monitor_idx = some ⟨r.nextSid, 1⟩ ∧
    (gs_duplicator_destroy (gs_duplicator_destroy (device_duplicator_create
        (device_duplicator_create r monitor_idx true).2 monitor_idx true).2
      monitor_idx).1 monitor_idx).2 = true ∧
    (gs_duplicator_destroy (gs_duplicator_destroy (device_duplicator_create
        (device_duplicator_create r monitor_idx true).2 monitor_idx true).2
      monitor_idx).1 monitor_idx).1.entries = r.entries := by
  have e1 : device_duplicator_create r monitor_idx true =
      (some ⟨r.nextSid, 1⟩,
        ⟨setInst r.entries monitor_idx ⟨r.nextSid, 1⟩, r.nextSid + 1⟩) := by
    simp [device_duplicator_create, h]
  have e2 : device_duplicator_create
      (⟨setInst r.entries monitor_idx ⟨r.nextSid, 1⟩, r.nextSid + 1⟩ : Instances)
      monitor_idx true =
      (some ⟨r.nextSid, 2⟩,
        ⟨setInst r.entries monitor_idx ⟨r.nextSid, 2⟩, r.nextSid + 1⟩) := by
    simp [device_duplicator_create, lookupInst_setInst_self, setInst_setInst]
  have e3 : gs_duplicator_destroy
      (⟨setInst r.entries monitor_idx ⟨r.nextSid, 2⟩, r.nextSid + 1⟩ : Instances)
      monitor_idx =
      (⟨setInst r.entries monitor_idx ⟨r.nextSid, 1⟩, r.nextSid + 1⟩, false) := by
    simp [gs_duplicator_destroy, lookupInst_setInst_self, setInst_setInst]
  have e4 : gs_duplicator_destroy
      (⟨setInst r.entries monitor_idx ⟨r.nextSid, 1⟩, r.nextSid + 1⟩ : Instances)
      monitor_idx =
      (⟨r.entries, r.nextSid + 1⟩, true) := by
    simp [gs_duplicator_destroy, lookupInst_setInst_self, eraseInst_setInst _ _ _ h]
  rw [e1]
  simp [e2, e3, e4, lookupInst_setInst_self]

/-- Witness for C2 on the empty registry at monitor index 0. -/
theorem C2_refcounted_sharing_witness :
    (device_duplicator_create ⟨[], 0⟩ 0 true).1 = some ⟨0, 1⟩ ∧
    (device_duplicator_create (device_duplicator_create ⟨[], 0⟩ 0 true).2 0 true).1 =
      some ⟨0, 2⟩ ∧
    lookupInst (device_duplicator_create
        (device_duplicator_create ⟨[], 0⟩ 0 true).2 0 true).2.entries 0 = some ⟨0, 2⟩ ∧
    (gs_duplicator_destroy (device_duplicator_create
        (device_duplicator_create ⟨[], 0⟩ 0 true).2 0 true).2 0).2 = false ∧
    lookupInst (gs_duplicator_destroy (device_duplicator_create
        (device_duplicator_create ⟨[], 0⟩ 0 true).2 0 true).2 0).1.entries 0 =
      some ⟨0, 1⟩ ∧
    (gs_duplicator_destroy (gs_duplicator_destroy (device_duplicator_create
        (device_duplicator_create ⟨[], 0⟩ 0 true).2 0 true).2 0).1 0).2 = true ∧
    (gs_duplicator_destroy (gs_duplicator_destroy (device_duplicator_create
        (device_duplicator_create ⟨[], 0⟩ 0 true).2 0 true).2 0).1 0).1.entries =
      (⟨[], 0⟩ : Instances).entries :=
  C2_refcounted_sharing ⟨[], 0⟩ 0 rfl

/-- Claim C4: with a cached texture present and GPU allocation succeeding,
copy_texture destroys and recreates the destination texture with a fresh
identity exactly when the incoming frame differs from the cache in width,
height or generalized format, sizing the new texture to the frame; when
all three match, the very same texture object is kept and the frame is
copied into it in place. -/
theorem C4_texture_recreated_iff (d : Duplicator) (frame : FrameDesc) (t : Texture2D)
    (ht : d.texture = some t) (hid : t.id < d.nextTexId) :
    ((t.width ≠ frame.width ∨ t.height ≠ frame.height ∨
        t.format ≠ general_format_of frame.fmt) →
      (copy_texture d frame true).texture =
        some ⟨d.nextTexId, frame.width, frame.height, general_format_of frame.fmt,
          some frame⟩ ∧
      d.nextTexId ≠ t.id) ∧
    ((t.width = frame.width ∧ t.height = frame.height ∧
        t.format = general_format_of frame.fmt) →
      (copy_texture d frame true).texture = some { t with contents := some frame }) := by
  constructor
  · intro hmis
    have hrec : needs_recreate d frame = true := by
      simp [needs_recreate, ht]
      tauto
    refine ⟨?_, by omega⟩
    simp [copy_texture, hrec]
  · intro hmatch
    have hrec : needs_recreate d frame = false := by
      simp [needs_recreate, ht]
      tauto
    simp [copy_texture, hrec, ht]

/-- Concrete pre-state for the C4 witness: cached 8 by 6 BGRA texture. -/
def c4Dup : Duplicator :=
  ⟨0, 1, true, false, .GS_CS_SRGB, some ⟨0, 8, 6, .GS_BGRA, none⟩, false, false, none, 1⟩

/-- Concrete incoming frame for the C4 witness: 10 by 7, half-float. -/
def c4Frame : FrameDesc := ⟨10, 7, .R16G16B16A16_FLOAT⟩

/-- Witness for C4 at a concrete cache and mismatched frame. -/
theorem C4_texture_recreated_iff_witness :
    ((((⟨0, 8, 6, .GS_BGRA, none⟩ : Texture2D)).width ≠ c4Frame.width ∨
        ((⟨0, 8, 6, .GS_BGRA, none⟩ : Texture2D)).height ≠ c4Frame.height ∨
        ((⟨0, 8, 6, .GS_BGRA, none⟩ : Texture2D)).format ≠ general_format_of c4Frame.fmt) →
      (copy_texture c4Dup c4Frame true).texture =
        some ⟨c4Dup.nextTexId, c4Frame.width, c4Frame.height,
          general_format_of c4Frame.fmt, some c4Frame⟩ ∧
      c4Dup.nextTexId ≠ ((⟨0, 8, 6, .GS_BGRA, none⟩ : Texture2D)).id) ∧
    ((((⟨0, 8, 6, .GS_BGRA, none⟩ : Texture2D)).width = c4Frame.width ∧
        ((⟨0, 8, 6, .GS_BGRA, none⟩ : Texture2D)).height = c4Frame.height ∧
        ((⟨0, 8, 6, .GS_BGRA, none⟩ : Texture2D)).format = general_format_of c4Frame.fmt) →
      (copy_texture c4Dup c4Frame true).texture =
        some { (⟨0, 8, 6, .GS_BGRA, none⟩ : Texture2D) with contents := some c4Frame }) :=
  C4_texture_recreated_iff c4Dup c4Frame ⟨0, 8, 6, .GS_BGRA, none⟩ rfl (by decide)

/-- Color-space consistency of a session: whatever colour space the session
carries agrees with the format of its cached texture. This holds for every
reachable session because copy_texture assigns color_space whenever it
(re)creates the texture; it is the induction hypothesis for the reuse path,
where copy_texture leaves color_space untouched. -/
def csInvariant (d : Duplicator) : Prop :=
  match d.texture with
  | none => True
  | some t =>
    (t.format = .GS_RGBA16F →
      d.color_space = if d.hdr then .GS_CS_709_SCRGB else .GS_CS_SRGB_16F) ∧
    (t.format = .GS_BGRA →
      d.color_space = if d.hdr then .GS_CS_709_SCRGB else .GS_CS_SRGB)

/-- Claim C7: after copy_texture processes a captured frame whose native
format is one of the two formats the duplication provider can deliver
(R16G16B16A16_FLOAT or B8G8R8A8_UNORM), the session's colour space equals
GS_CS_709_SCRGB when the session is HDR, GS_CS_SRGB_16F when the native
format is half-float and the session is not HDR, and GS_CS_SRGB otherwise.
The assignment itself runs on the (re)create branch; on the reuse branch
the previously assigned value already equals this formula, which the
csInvariant hypothesis expresses. -/
theorem C7_color_space_formula (d : Duplicator) (frame : FrameDesc) (allocOk : Bool)
    (hf : frame.fmt = .R16G16B16A16_FLOAT ∨ frame.fmt = .B8G8R8A8_UNORM)
    (hinv : csInvariant d) :
    (copy_texture d frame allocOk).color_space =
      (if d.hdr then .GS_CS_709_SCRGB
       else if frame.fmt = .R16G16B16A16_FLOAT then .GS_CS_SRGB_16F
       else .GS_CS_SRGB) := by
  by_cases hrec : needs_recreate d frame = true
  · simp [copy_texture, hrec]
    split_ifs <;> simp_all
  · simp only [Bool.not_eq_true] at hrec
    rcases htex : d.texture with _ | t
    · simp [needs_recreate, htex] at hrec
    · have hfmt : t.format = general_format_of frame.fmt := by
        simp [needs_recreate, htex] at hrec
        tauto
      have hcs : (copy_texture d frame allocOk).color_space = d.color_space := by
        simp [copy_texture, hrec, htex]
      rw [hcs]
      simp only [csInvariant, htex] at hinv
      rcases hf with hf | hf <;>
        simp only [hf, general_format_of, ConvertDXGITextureFormat,
          gs_generalize_format] at hfmt <;>
        simp [hf, hinv.1, hinv.2, hfmt]

/-- Concrete session (no cached texture yet, non-HDR) and half-float frame
for the C7 witness. -/
def c7Dup : Duplicator :=
  ⟨0, 1, true, false, .GS_CS_SRGB, none, false, false, none, 0⟩

/-- Witness for C7: first frame in half-float on a non-HDR session yields
the linear high-precision colour space. -/
theorem C7_color_space_formula_witness :
    (copy_texture c7Dup ⟨8, 6, .R16G16B16A16_FLOAT⟩ true).color_space =
      (if c7Dup.hdr then .GS_CS_709_SCRGB
       else if (⟨8, 6, .R16G16B16A16_FLOAT⟩ : FrameDesc).fmt = .R16G16B16A16_FLOAT then
         .GS_CS_SRGB_16F
       else .GS_CS_SRGB) :=
  C7_color_space_formula c7Dup ⟨8, 6, .R16G16B16A16_FLOAT⟩ true (Or.inl rfl)
    (by simp [csInvariant, c7Dup])

/-- Counterexample to claim C8 as stated: a present call that draws
(copied = true) leaves the device viewport and the bound render target
changed to the preview's own values on exit, so neither is restored to its
prior value; only the current swap chain comes back. -/
theorem C8_counterexample :
    (PresentFrame
        ⟨0, 1, true, false, .GS_CS_SRGB, some ⟨0, 4, 3, .GS_BGRA, none⟩, true, true,
          some ⟨5, 4, 3, true, false⟩, 1⟩
        ⟨some 9, ⟨1, 2, 100, 100⟩, some 7⟩
        ⟨true, 4, 3, true⟩).copied = true ∧
    (PresentFrame
        ⟨0, 1, true, false, .GS_CS_SRGB, some ⟨0, 4, 3, .GS_BGRA, none⟩, true, true,
          some ⟨5, 4, 3, true, false⟩, 1⟩
        ⟨some 9, ⟨1, 2, 100, 100⟩, some 7⟩
        ⟨true, 4, 3, true⟩).dev.viewport ≠ (⟨1, 2, 100, 100⟩ : GsRect) ∧
    (PresentFrame
        ⟨0, 1, true, false, .GS_CS_SRGB, some ⟨0, 4, 3, .GS_BGRA, none⟩, true, true,
          some ⟨5, 4, 3, true, false⟩, 1⟩
        ⟨some 9, ⟨1, 2, 100, 100⟩, some 7⟩
        ⟨true, 4, 3, true⟩).dev.boundRTV ≠ some 7 := by
  decide

/-- Claim C8 (amended): of the shared GPU device state, only the current
swap chain is saved before the preview's drawing and restored to its prior
value on every exit path of PresentFrame; the viewport and the render
target binding are overwritten during the present and not restored. -/
theorem C8_swapchain_saved_restored (d : Duplicator) (dev : DeviceState) (env : PresentEnv) :
    (PresentFrame d dev env).dev.curSwapChain = dev.curSwapChain := by
  unfold PresentFrame presentDraw
  rcases h1 : d.displaySwapChain with _ | sc <;> rcases h2 : d.texture with _ | t <;>
    simp [h1, h2] <;> split_ifs <;> simp

/-- Claim C9: when a preview window, swap chain and cached texture exist
and the window is visible, a zero client area makes PresentFrame a no-op
with no resize and no copy; a nonzero client area that differs from the
surface size causes a resize first — on resize failure the attempt is
aborted with nothing drawn, and on success the surface tracks the client
area and (given a render target view) the copy and present proceed. -/
theorem C9_present_resize (d : Duplicator) (dev : DeviceState) (env : PresentEnv)
    (sc : SwapChain) (t : Texture2D)
    (hw : d.displayWindow = true) (hsc : d.displaySwapChain = some sc)
    (ht : d.texture = some t) (hv : env.windowVisible = true) :
    ((env.clientWidth = 0 ∨ env.clientHeight = 0) →
      PresentFrame d dev env = ⟨d, dev, false, false, false, false⟩) ∧
    (env.clientWidth ≠ 0 → env.clientHeight ≠ 0 →
      (env.clientWidth ≠ sc.width ∨ env.clientHeight ≠ sc.height) →
      ((env.resizeOk = false →
          PresentFrame d dev env = ⟨d, dev, false, false, false, false⟩) ∧
       (env.resizeOk = true →
          (PresentFrame d dev env).resized = true ∧
          (PresentFrame d dev env).d.displaySwapChain =
            some { sc with width := env.clientWidth, height := env.clientHeight } ∧
          (sc.hasRTV = true →
            (PresentFrame d dev env).copied = true ∧
            (PresentFrame d dev env).presented = true)))) := by
  constructor
  · intro hzero
    simp [PresentFrame, hsc, ht, hw, hv, hzero]
  · intro hw0 hh0 hdiff
    constructor
    · intro hre
      simp [PresentFrame, hsc, ht, hw, hv, hw0, hh0, hdiff, hre]
    · intro hre
      refine ⟨?_, ?_, ?_⟩ <;>
        simp [PresentFrame, presentDraw, hsc, ht, hw, hv, hw0, hh0, hdiff, hre] <;>
        split_ifs <;> simp_all

/-- Concrete session, device state and environment for the C9 witness:
visible 4 by 3 preview surface, window client area resized to 10 by 8. -/
def c9Dup : Duplicator :=
  ⟨0, 1, true, false, .GS_CS_SRGB, some ⟨0, 4, 3, .GS_BGRA, none⟩, true, true,
    some ⟨5, 4, 3, true, false⟩, 1⟩

/-- Concrete device state for the C9 witness. -/
def c9Dev : DeviceState := ⟨some 9, ⟨0, 0, 0, 0⟩, none⟩

/-- Concrete present environment for the C9 witness. -/
def c9Env : PresentEnv := ⟨true, 10, 8, true⟩

/-- Witness for C9 at a concrete preview whose window grew to 10 by 8. -/
theorem C9_present_resize_witness :
    ((c9Env.clientWidth = 0 ∨ c9Env.clientHeight = 0) →
      PresentFrame c9Dup c9Dev c9Env = ⟨c9Dup, c9Dev, false, false, false, false⟩) ∧
    (c9Env.clientWidth ≠ 0 → c9Env.clientHeight ≠ 0 →
      (c9Env.clientWidth ≠ (⟨5, 4, 3, true, false⟩ : SwapChain).width ∨
        c9Env.clientHeight ≠ (⟨5, 4, 3, true, false⟩ : SwapChain).height) →
      ((c9Env.resizeOk = false →
          PresentFrame c9Dup c9Dev c9Env = ⟨c9Dup, c9Dev, false, false, false, false⟩) ∧
       (c9Env.resizeOk = true →
          (PresentFrame c9Dup c9Dev c9Env).resized = true ∧
          (PresentFrame c9Dup c9Dev c9Env).d.displaySwapChain =
            some { (⟨5, 4, 3, true, false⟩ : SwapChain) with
              width := c9Env.clientWidth, height := c9Env.clientHeight } ∧
          ((⟨5, 4, 3, true, false⟩ : SwapChain).hasRTV = true →
            (PresentFrame c9Dup c9Dev c9Env).copied = true ∧
            (PresentFrame c9Dup c9Dev c9Env).presented = true)))) :=
  C9_present_resize c9Dup c9Dev c9Env ⟨5, 4, 3, true, false⟩ ⟨0, 4, 3, .GS_BGRA, none⟩
    rfl rfl rfl rfl

/-- Counterexample to claim C10 as stated: an update whose poll succeeds
but whose GPU texture allocation fails still sets the fresh-frame flag
while leaving the cached texture empty, so the flag and the texture are
not updated atomically together. -/
theorem C10_counterexample :
    (gs_duplicator_update_frame
        ⟨0, 1, true, false, .GS_CS_SRGB, none, false, false, none, 0⟩
        ⟨none, ⟨0, 0, 0, 0⟩, none⟩
        ⟨.Success ⟨8, 6, .B8G8R8A8_UNORM⟩, true, false,
          ⟨false, 0, 0, false⟩⟩).d.updated = true ∧
    (gs_duplicator_update_frame
        ⟨0, 1, true, false, .GS_CS_SRGB, none, false, false, none, 0⟩
        ⟨none, ⟨0, 0, 0, 0⟩, none⟩
        ⟨.Success ⟨8, 6, .B8G8R8A8_UNORM⟩, true, false,
          ⟨false, 0, 0, false⟩⟩).d.texture = none := by
  decide

/-- On the reallocation branch with a failing gs_texture_create, the cached
texture ends up empty. -/
theorem copy_texture_alloc_fail (d : Duplicator) (frame : FrameDesc)
    (hrec : needs_recreate d frame = true) :
    (copy_texture d frame false).texture = none := by
  simp [copy_texture, hrec]

/-- With a succeeding gs_texture_create, copy_texture always leaves a cached
texture holding the incoming frame's contents. -/
theorem copy_texture_alloc_ok (d : Duplicator) (frame : FrameDesc) :
    ∃ t2, (copy_texture d frame true).texture = some t2 ∧ t2.contents = some frame := by
  by_cases hrec : needs_recreate d frame = true
  · exact ⟨⟨d.nextTexId, frame.width, frame.height, general_format_of frame.fmt, some frame⟩,
      by simp [copy_texture, hrec], rfl⟩
  · simp only [Bool.not_eq_true] at hrec
    rcases htex : d.texture with _ | t
    · simp [needs_recreate, htex] at hrec
    · exact ⟨{ t with contents := some frame }, by simp [copy_texture, hrec, htex], rfl⟩

/-- Shape of the update result on the successful-acquire path: the cached
texture is exactly copy_texture's, the fresh flag is set, and ReleaseFrame
ran once — whether or not a preview present follows. -/
theorem update_success_branch (d : Duplicator) (dev : DeviceState) (env : UpdateEnv)
    (frame : FrameDesc) (hdup : d.hasDuplicator = true) (hrep : representing d = false)
    (hacq : env.acquire = .Success frame) (hq : env.queryTexOk = true) :
    (gs_duplicator_update_frame d dev env).d.texture =
      (copy_texture d frame env.allocOk).texture ∧
    (gs_duplicator_update_frame d dev env).d.updated = true ∧
    (gs_duplicator_update_frame d dev env).releaseFrameCalls = 1 := by
  unfold gs_duplicator_update_frame
  simp only [hdup, hrep, hacq, hq]
  simp
  split_ifs <;> simp [PresentFrame_texture, PresentFrame_updated]

/-- Claim C10 (amended): after every poll that acquires a frame and passes
the texture query, the fresh-frame flag is set and the frame handle is
released exactly once — even when GPU texture allocation fails, in which
case the cached texture is left empty rather than holding the frame; when
allocation succeeds the cached texture does hold the acquired frame's
contents. -/
theorem C10_fresh_flag_after_success (d : Duplicator) (dev : DeviceState) (env : UpdateEnv)
    (frame : FrameDesc) (hdup : d.hasDuplicator = true) (hrep : representing d = false)
    (hacq : env.acquire = .Success frame) (hq : env.queryTexOk = true) :
    (gs_duplicator_update_frame d dev env).d.updated = true ∧
    (gs_duplicator_update_frame d dev env).releaseFrameCalls = 1 ∧
    (env.allocOk = false → needs_recreate d frame = true →
      (gs_duplicator_update_frame d dev env).d.texture = none) ∧
    (env.allocOk = true →
      ∃ t2, (gs_duplicator_update_frame d dev env).d.texture = some t2 ∧
        t2.contents = some frame) := by
  obtain ⟨htex, hupd, hrel⟩ := update_success_branch d dev env frame hdup hrep hacq hq
  refine ⟨hupd, hrel, ?_, ?_⟩
  · intro hao hrec
    rw [hao] at htex
    rw [htex]
    exact copy_texture_alloc_fail d frame hrec
  · intro hao
    rw [hao] at htex
    obtain ⟨t2, h2, h3⟩ := copy_texture_alloc_ok d frame
    exact ⟨t2, by rw [htex]; exact h2, h3⟩

/-- Concrete inputs for the C10 witness: first frame, alloc failing. -/
def c10Dup : Duplicator :=
  ⟨0, 1, true, false, .GS_CS_SRGB, none, false, false, none, 0⟩

/-- Concrete device state for the C10 witness. -/
def c10Dev : DeviceState := ⟨none, ⟨0, 0, 0, 0⟩, none⟩

/-- Concrete update environment for the C10 witness: successful acquire,
texture query succeeding, GPU allocation failing. -/
def c10Env : UpdateEnv :=
  ⟨.Success ⟨8, 6, .B8G8R8A8_UNORM⟩, true, false, ⟨false, 0, 0, false⟩⟩

/-- Witness for the amended C10 at a concrete failing allocation. -/
theorem C10_fresh_flag_after_success_witness :
    (gs_duplicator_update_frame c10Dup c10Dev c10Env).d.updated = true ∧
    (gs_duplicator_update_frame c10Dup c10Dev c10Env).releaseFrameCalls = 1 ∧
    (c10Env.allocOk = false → needs_recreate c10Dup ⟨8, 6, .B8G8R8A8_UNORM⟩ = true →
      (gs_duplicator_update_frame c10Dup c10Dev c10Env).d.texture = none) ∧
    (c10Env.allocOk = true →
      ∃ t2, (gs_duplicator_update_frame c10Dup c10Dev c10Env).d.texture = some t2 ∧
        t2.contents = some (⟨8, 6, .B8G8R8A8_UNORM⟩ : FrameDesc)) :=
  C10_fresh_flag_after_success c10Dup c10Dev c10Env ⟨8, 6, .B8G8R8A8_UNORM⟩
    rfl rfl rfl rfl

end D3D11Duplicator
